import Mathlib

/-!
Shallow embedding of the error and diagnostic core of the nickel configuration
language (src/src/error.rs): the error taxonomy, the blame model, and the
diagnostic synthesis engine with its synthetic anchor fallback. The mutable
source registry threaded through diagnostic synthesis becomes explicit state
passing: every operation that may register a snippet takes the registry and
returns the updated registry alongside its result.
-/

namespace Nickel

/-- Modelled from the spec: the identifier of a registered source entry, handed
out by the registry on insertion (FileId of the external codespan crate). The
registry is modelled as a list of entries in insertion order, so an identifier
is the index of the entry. -/
abbrev FileId := Nat

/-- Modelled from the spec: the source registry, an append only mapping from a
generated identifier to a display name and contents (Files of the external
codespan crate). Entries are never removed or mutated after insertion. -/
abbrev Files := List (String × String)

/-- Modelled from the spec: registering a snippet appends one new entry and
returns its fresh identifier together with the grown registry (Files.add of the
external codespan crate, made state passing). -/
def Files.add (files : Files) (name : String) (source : String) : FileId × Files :=
  (files.length, files ++ [(name, source)])

/-- Modelled from the spec: a position, that is a half open start..end range
within a registered source (RawSpan of position.rs, which is not among the
sources here; byte indices become Nat). -/
structure RawSpan where
  src_id : FileId
  start : Nat
  end_ : Nat
deriving DecidableEq

/-- Modelled from the spec: a language term as seen by the error core, which is
not among the sources here (term.rs). Terms expose a best effort short textual
rendering (shallow_repr) and a best known type name (type_of, none when
unevaluated), exactly the two observations error.rs makes of a term. -/
structure Term where
  shallow_repr : String
  type_of : Option String
deriving DecidableEq

/-- Modelled from the spec: a term together with an optional position
(RichTerm of term.rs); the position is none exactly when the term is the
product of computation rather than literal source text. -/
structure RichTerm where
  term : Term
  pos : Option RawSpan
deriving DecidableEq

/-- Modelled from the spec: an identifier, a newtype over a string
(Ident of identifier.rs, which is not among the sources here). -/
structure Ident where
  ident : String
deriving DecidableEq

/-- Modelled from the spec: an ordered sequence of call site frames attached to
a blame error (CallStack of eval.rs, which is not among the sources here),
opaque to the error core beyond being attachable. -/
structure CallStack where
  frames : List String
deriving DecidableEq

/-- Modelled from the spec: a structural path into a composite contract
(TyPath of label.rs, which is not among the sources here). Nil means the
violation is at the top level of the contract; Domain and Codomain descend
into a function contract. -/
inductive TyPath where
  | Nil : TyPath
  | Domain : TyPath → TyPath
  | Codomain : TyPath → TyPath
deriving DecidableEq

/-- Modelled from the spec: debug style rendering of a type path, appended to a
blame message when the path is not Nil (the Debug formatting used by the
BlameError arm of to_diagnostic). -/
def TyPath.debug_repr : TyPath → String
  | TyPath.Nil => "Nil()"
  | TyPath.Domain p => "Domain(" ++ TyPath.debug_repr p ++ ")"
  | TyPath.Codomain p => "Codomain(" ++ TyPath.debug_repr p ++ ")"

/-- Modelled from the spec: one instantiation of a contract check (Label of
label.rs, which is not among the sources here): tag, blame polarity (true
blames the value, false blames the context), structural path and span. -/
structure Label where
  tag : String
  polarity : Bool
  path : TyPath
  span : RawSpan
deriving DecidableEq

/-- Modelled from the spec: the style of a diagnostic annotation (LabelStyle of
the external codespan crate). -/
inductive LabelStyle where
  | Primary : LabelStyle
  | Secondary : LabelStyle
deriving DecidableEq

/-- Modelled from the spec: a diagnostic annotation (Label of the external
codespan crate, named CLabel here to keep it apart from the contract label):
style, source identifier, half open range and message. -/
structure CLabel where
  style : LabelStyle
  file_id : FileId
  range_start : Nat
  range_end : Nat
  message : String
deriving DecidableEq

/-- Construct an annotation with an empty message (Label.new of codespan). -/
def CLabel.new (style : LabelStyle) (file_id : FileId)
    (range_start range_end : Nat) : CLabel :=
  { style := style, file_id := file_id, range_start := range_start,
    range_end := range_end, message := "" }

/-- Construct a primary annotation (Label.primary of codespan). -/
def CLabel.primary (file_id : FileId) (range_start range_end : Nat) : CLabel :=
  CLabel.new LabelStyle.Primary file_id range_start range_end

/-- Construct a secondary annotation (Label.secondary of codespan). -/
def CLabel.secondary (file_id : FileId) (range_start range_end : Nat) : CLabel :=
  CLabel.new LabelStyle.Secondary file_id range_start range_end

/-- Set the message of an annotation (Label.with_message of codespan). -/
def CLabel.with_message (l : CLabel) (m : String) : CLabel :=
  { l with message := m }

/-- Modelled from the spec: a renderer agnostic diagnostic (Diagnostic of the
external codespan crate): message, annotations and notes. The severity is
always error in this core and is left implicit. -/
structure Diagnostic where
  message : String
  labels : List CLabel
  notes : List String
deriving DecidableEq

/-- A fresh empty error diagnostic (Diagnostic.error of codespan). -/
def Diagnostic.error : Diagnostic :=
  { message := "", labels := [], notes := [] }

/-- Set the message of a diagnostic (with_message of codespan). -/
def Diagnostic.with_message (d : Diagnostic) (m : String) : Diagnostic :=
  { d with message := m }

/-- Set the annotations of a diagnostic (with_labels of codespan). -/
def Diagnostic.with_labels (d : Diagnostic) (ls : List CLabel) : Diagnostic :=
  { d with labels := ls }

/-- Set the notes of a diagnostic (with_notes of codespan). -/
def Diagnostic.with_notes (d : Diagnostic) (ns : List String) : Diagnostic :=
  { d with notes := ns }

/-- An error occurring during evaluation (EvalError of error.rs), with the
payloads in source order. -/
inductive EvalError where
  | BlameError : Label → Option CallStack → EvalError
  | TypeError : String → String → RichTerm → EvalError
  | NotAFunc : RichTerm → RichTerm → Option RawSpan → EvalError
  | FieldMissing : String → String → RichTerm → Option RawSpan → EvalError
  | NotEnoughArgs : Nat → String → Option RawSpan → EvalError
  | MergeIncompatibleArgs : RichTerm → RichTerm → Option RawSpan → EvalError
  | UnboundIdentifier : Ident → Option RawSpan → EvalError
  | Other : String → Option RawSpan → EvalError
deriving DecidableEq

/-- A general error occurring during either parsing or evaluation
(Error of error.rs). -/
inductive Error where
  | EvalError : EvalError → Error
  | ParseError : String → Error
deriving DecidableEq

/-- Create a primary annotation from a span (primary of error.rs). -/
def primary (span : RawSpan) : CLabel :=
  CLabel.primary span.src_id span.start span.end_

/-- Create a secondary annotation from a span (secondary of error.rs). -/
def secondary (span : RawSpan) : CLabel :=
  CLabel.secondary span.src_id span.start span.end_

/-- Create an annotation from an optional span, or fall back to annotating the
alternative snippet alt_term if the span is none (label_alt of error.rs). In
the fallback case the snippet is registered on the fly under the fixed name
marking it as generated by evaluation, and the annotation covers the range
1..length of the snippet. -/
def label_alt (span_opt : Option RawSpan) (alt_term : String)
    (style : LabelStyle) (files : Files) : CLabel × Files :=
  match span_opt with
  | some span => (CLabel.new style span.src_id span.start span.end_, files)
  | none =>
      let range_start := 1
      let range_end := alt_term.length
      let added := Files.add files "<unkown> (generated by evaluation)" alt_term
      (CLabel.new style added.1 range_start range_end, added.2)

/-- Create a primary annotation from an optional span, with the synthetic
anchor fallback (primary_alt of error.rs). -/
def primary_alt (span_opt : Option RawSpan) (alt_term : String)
    (files : Files) : CLabel × Files :=
  label_alt span_opt alt_term LabelStyle.Primary files

/-- Create a primary annotation from a term, falling back to annotating the
shallow representation of the term if its span is none (primary_term of
error.rs). -/
def primary_term (term : RichTerm) (files : Files) : CLabel × Files :=
  primary_alt term.pos term.term.shallow_repr files

/-- Create a secondary annotation from an optional span, with the synthetic
anchor fallback (secondary_alt of error.rs). -/
def secondary_alt (span_opt : Option RawSpan) (alt_term : String)
    (files : Files) : CLabel × Files :=
  label_alt span_opt alt_term LabelStyle.Secondary files

set_option linter.unusedVariables false in
/-- Convert an evaluation error to a diagnostic, registering synthetic
snippets in the registry when needed (the ToDiagnostic implementation for
EvalError in error.rs). In the FieldMissing arm the source builds a notes
vector but never attaches it to the diagnostic; the translation mirrors that
faithfully. -/
def EvalError.to_diagnostic : EvalError → Files → Diagnostic × Files
  | EvalError.BlameError l _cs_opt, files =>
      let msg0 := "Blame error: [" ++ l.tag ++ "]."
      let msg1 := msg0 ++
        (if l.polarity then "  The blame is on the value (positive blame)\n"
         else "  The blame is on the context (negative blame)\n")
      let msg := msg1 ++
        (if l.path ≠ TyPath.Nil then TyPath.debug_repr l.path else "")
      (((Diagnostic.error.with_message msg).with_labels
          [CLabel.with_message
            (CLabel.primary l.span.src_id l.span.start l.span.end_)
            "bound here"]),
       files)
  | EvalError.TypeError expd msg t, files =>
      let label := "This expression has type " ++
        (t.term.type_of.getD "<unevaluated>") ++ ", but " ++ expd ++
        " was expected"
      let pt := primary_term t files
      ((((Diagnostic.error.with_message "Type error").with_labels
          [CLabel.with_message pt.1 label]).with_notes [msg]),
       pt.2)
  | EvalError.NotAFunc t arg pos_opt, files =>
      let p1 := primary_term t files
      let p2 := secondary_alt pos_opt
        ("(" ++ t.term.shallow_repr ++ ") (" ++ arg.term.shallow_repr ++ ")")
        p1.2
      (((Diagnostic.error.with_message "Not a function").with_labels
          [CLabel.with_message p1.1
            "this term is applied, but it is not a function",
           CLabel.with_message p2.1 "applied here"]),
       p2.2)
  | EvalError.FieldMissing field op t span_opt, files =>
      let labels0 : List CLabel :=
        match span_opt with
        | some span =>
            [CLabel.with_message
              (CLabel.primary span.src_id span.start span.end_)
              ("this requires field " ++ field ++ " to exist")]
        | none => []
      let notes0 : List String :=
        match span_opt with
        | some _ => []
        | none =>
            ["Field " ++ field ++ " was required by the operator " ++ op]
      let labels1 := labels0 ++
        (match t.pos with
         | some span =>
             [CLabel.with_message (secondary span)
               ("field " ++ field ++ " is missing here")]
         | none => [])
      (((Diagnostic.error.with_message "Missing field").with_labels labels1),
       files)
  | EvalError.NotEnoughArgs count op span_opt, files =>
      let msg := op ++ " expects " ++ toString count ++
        " arguments, but not enough were provided"
      let labels0 : List CLabel :=
        match span_opt with
        | some span =>
            [CLabel.with_message
              (CLabel.primary span.src_id span.start span.end_) msg]
        | none => []
      let notes0 : List String :=
        match span_opt with
        | some _ => []
        | none => [msg]
      ((((Diagnostic.error.with_message "Not enough arguments").with_labels
          labels0).with_notes notes0),
       files)
  | EvalError.MergeIncompatibleArgs t1 t2 span_opt, files =>
      let p1 := primary_term t1 files
      let p2 := primary_term t2 p1.2
      let labels0 :=
        [CLabel.with_message p1.1 "cannot merge this expression",
         CLabel.with_message p2.1 "with this expression"] ++
          (match span_opt with
           | some span => [CLabel.with_message (secondary span) "merged here"]
           | none => [])
      (((Diagnostic.error.with_message "Non mergeable terms").with_labels
          labels0),
       p2.2)
  | EvalError.UnboundIdentifier i span_opt, files =>
      let p := primary_alt span_opt i.ident files
      (((Diagnostic.error.with_message "Unbound identifier").with_labels
          [CLabel.with_message p.1 "this identifier is unbound"]),
       p.2)
  | EvalError.Other msg span_opt, files =>
      let labels0 : List CLabel :=
        match span_opt with
        | some span => [CLabel.with_message (primary span) "here"]
        | none => []
      (((Diagnostic.error.with_message msg).with_labels labels0), files)

/-- Convert a top level error to a diagnostic (the ToDiagnostic implementation
for Error in error.rs): a parse error needs no registry mutation but the
signature is uniform. -/
def Error.to_diagnostic : Error → Files → Diagnostic × Files
  | Error.ParseError msg, files =>
      (Diagnostic.error.with_message ("While parsing: " ++ msg), files)
  | Error.EvalError err, files => EvalError.to_diagnostic err files

/-- C8: for every message string msg and every registry, to_diagnostic on
ParseError(msg) returns a diagnostic whose message is the concatenation
"While parsing: " ++ msg, with no labels (and no notes), and leaves the source
registry completely unchanged. -/
theorem c8_parse_error_message_no_labels (msg : String) (files : Files) :
    Error.to_diagnostic (Error.ParseError msg) files =
      ({ message := "While parsing: " ++ msg, labels := [], notes := [] },
       files) := by
  rfl

/-- C10: for every contract label l, every registry and any two optional call
stacks cs1 and cs2, to_diagnostic on BlameError(l, cs1) and on
BlameError(l, cs2) produce identical diagnostics and identical registries:
the attached call stack has no influence on the output. -/
theorem c10_blame_error_ignores_call_stack (l : Label)
    (cs1 cs2 : Option CallStack) (files : Files) :
    EvalError.to_diagnostic (EvalError.BlameError l cs1) files =
      EvalError.to_diagnostic (EvalError.BlameError l cs2) files := by
  rfl

/-- C7: for every registry, to_diagnostic on UnboundIdentifier("x", None)
yields a diagnostic with message "Unbound identifier" and exactly one primary
label, message "this identifier is unbound", anchored to a newly registered
synthetic entry whose content is exactly "x". -/
theorem c7_unbound_identifier_synthetic_anchor (files : Files) :
    EvalError.to_diagnostic
        (EvalError.UnboundIdentifier { ident := "x" } none) files =
      ({ message := "Unbound identifier",
         labels := [{ style := LabelStyle.Primary, file_id := files.length,
                      range_start := 1, range_end := 1,
                      message := "this identifier is unbound" }],
         notes := [] },
       files ++ [("<unkown> (generated by evaluation)", "x")]) := by
  rfl

/-- C5: for every span, alternative snippet, style, registry, term and
identifier, a labeling of a positioned item carries exactly the source id and
start..end range of that position and leaves the registry unchanged, with no
synthetic entry created: stated for label_alt on a present span, for
primary_term on a term with a real position, and for to_diagnostic on an
UnboundIdentifier carrying a real position. -/
theorem c5_real_position_exact_no_registry_change (span : RawSpan)
    (alt : String) (style : LabelStyle) (files : Files) (tm : Term)
    (i : Ident) :
    label_alt (some span) alt style files =
      ({ style := style, file_id := span.src_id, range_start := span.start,
         range_end := span.end_, message := "" }, files) ∧
    primary_term { term := tm, pos := some span } files =
      ({ style := LabelStyle.Primary, file_id := span.src_id,
         range_start := span.start, range_end := span.end_, message := "" },
       files) ∧
    EvalError.to_diagnostic (EvalError.UnboundIdentifier i (some span))
        files =
      ({ message := "Unbound identifier",
         labels := [{ style := LabelStyle.Primary, file_id := span.src_id,
                      range_start := span.start, range_end := span.end_,
                      message := "this identifier is unbound" }],
         notes := [] },
       files) := by
  exact ⟨rfl, rfl, rfl⟩

/-- C2 counterexample: on NotEnoughArgs(2, "strings.length", Some(span)) the
message of the produced diagnostic is not
"strings.length expects 2 arguments, but not enough were provided", refuting
the claim as stated at this concrete input (the code sets the diagnostic
message to the generic "Not enough arguments" and puts the formatted string on
the label instead). -/
theorem c2_counterexample_message_is_generic :
    ((EvalError.to_diagnostic
        (EvalError.NotEnoughArgs 2 "strings.length"
          (some { src_id := 0, start := 0, end_ := 5 })) []).1.message =
      "strings.length expects 2 arguments, but not enough were provided") =
      False := by
  simp [EvalError.to_diagnostic, Diagnostic.error, Diagnostic.with_message,
    Diagnostic.with_labels, Diagnostic.with_notes]

/-- C2 (amended): for every count, op, span and registry, to_diagnostic on
NotEnoughArgs(count, op, Some(span)) yields a diagnostic with message
"Not enough arguments", exactly one primary label at span whose message is
"{op} expects {count} arguments, but not enough were provided", and zero
notes; on NotEnoughArgs(count, op, None) that formatted string appears as the
sole note with no labels instead, never both; the registry is unchanged. -/
theorem c2_not_enough_args_amended (count : Nat) (op : String)
    (span : RawSpan) (files : Files) :
    EvalError.to_diagnostic
        (EvalError.NotEnoughArgs count op (some span)) files =
      ({ message := "Not enough arguments",
         labels := [{ style := LabelStyle.Primary, file_id := span.src_id,
                      range_start := span.start, range_end := span.end_,
                      message := op ++ " expects " ++ toString count ++
                        " arguments, but not enough were provided" }],
         notes := [] },
       files) ∧
    EvalError.to_diagnostic (EvalError.NotEnoughArgs count op none) files =
      ({ message := "Not enough arguments",
         labels := [],
         notes := [op ++ " expects " ++ toString count ++
           " arguments, but not enough were provided"] },
       files) := by
  exact ⟨rfl, rfl⟩

/-- C9: whenever the synthetic anchor fallback fires (the optional span is
none), the returned annotation covers byte range 1..length of the snippet: its
start is 1 (strictly positive, so the first byte of the snippet, index 0, is
never covered) and its end is the snippet length; for the one character
snippet "x" the range start equals the range end, so the range is empty. -/
theorem c9_synthetic_range_skips_first_byte (alt : String)
    (style : LabelStyle) (files : Files) :
    (label_alt none alt style files).1.range_start = 1 ∧
    (label_alt none alt style files).1.range_end = alt.length ∧
    0 < (label_alt none alt style files).1.range_start ∧
    (label_alt none "x" style files).1.range_start =
      (label_alt none "x" style files).1.range_end := by
  exact ⟨rfl, rfl, Nat.one_pos, rfl⟩

/-- C1: the claim fails on the code: to_diagnostic applied to
FieldMissing("foo", "unwrap", t, None) with a term t that has no position
yields a diagnostic whose message "Missing field" is non empty but which has
zero labels and zero notes, so the total label plus note count is 0, not at
least 1 (the source builds the explanatory note but never attaches it to the
diagnostic). -/
theorem c1_totality_fails_on_field_missing :
    EvalError.to_diagnostic
        (EvalError.FieldMissing "foo" "unwrap"
          { term := { shallow_repr := "2", type_of := none }, pos := none }
          none) [] =
      ({ message := "Missing field", labels := [], notes := [] }, []) := by
  rfl

/-- C3: the claim fails on the code: for
FieldMissing("hello", "head", t, None) with a position free term t, the claim
requires a note mentioning the field and the operator to be included in the
diagnostic, but the produced diagnostic has no labels and no notes at all:
the note built from the field and operator is dropped before the diagnostic
is assembled. -/
theorem c3_field_missing_note_dropped :
    EvalError.to_diagnostic
        (EvalError.FieldMissing "hello" "head"
          { term := { shallow_repr := "3", type_of := none }, pos := none }
          none) [] =
      ({ message := "Missing field", labels := [], notes := [] }, []) := by
  rfl

/-- Helper: the registry effect of one labeling call is to append nothing when
the span is present, and to append exactly the one synthetic entry when it is
absent; the appended entries do not depend on the registry contents. -/
theorem label_alt_registry (so : Option RawSpan) (alt : String)
    (st : LabelStyle) (files : Files) :
    (label_alt so alt st files).2 =
      files ++
        (match so with
         | some _ => []
         | none => [("<unkown> (generated by evaluation)", alt)]) := by
  cases so <;> simp [label_alt, Files.add]

/-- Helper: the registry effect of diagnostic synthesis is to append a batch
of synthetic entries that depends only on the error, not on the registry it
starts from. -/
theorem to_diagnostic_registry (e : EvalError) (files : Files) :
    (EvalError.to_diagnostic e files).2 =
      files ++ (EvalError.to_diagnostic e []).2 := by
  cases e <;>
    simp [EvalError.to_diagnostic, primary_term, primary_alt, secondary_alt,
      label_alt_registry, List.append_assoc]

/-- C4: for every alternative snippet, style and registry, a labeling call on
a missing position appends exactly one new entry to the source registry, the
returned annotation points at that new entry (its identifier is the index of
the appended entry) with a range 1..length lying within the bounds of the new
entry content length; and for every error, repeating to_diagnostic on the same
error instance appends the same batch of fresh synthetic entries again, so
nothing is cached across calls. -/
theorem c4_synthetic_anchor_fresh_entries (alt : String)
    (style : LabelStyle) (files : Files) (e : EvalError) :
    (label_alt none alt style files).2 =
      files ++ [("<unkown> (generated by evaluation)", alt)] ∧
    ((label_alt none alt style files).2).length = files.length + 1 ∧
    (label_alt none alt style files).1.file_id = files.length ∧
    (label_alt none alt style files).1.range_start = 1 ∧
    (label_alt none alt style files).1.range_end = alt.length ∧
    (label_alt none alt style files).1.range_end ≤ alt.length ∧
    (EvalError.to_diagnostic e ((EvalError.to_diagnostic e files).2)).2 =
      files ++ (EvalError.to_diagnostic e []).2 ++
        (EvalError.to_diagnostic e []).2 := by
  refine ⟨rfl, by simp [label_alt, Files.add], rfl, rfl, rfl,
    Nat.le_of_eq rfl, ?_⟩
  rw [to_diagnostic_registry e ((EvalError.to_diagnostic e files).2),
    to_diagnostic_registry e files]

/-- C6: for every tag, span s, optional call stack, registry and path p,
to_diagnostic on BlameError with a positive label of path Nil yields exactly
the diagnostic whose message is "Blame error: [tag]." followed by the fixed
positive blame prose, one primary label at s with message "bound here", no
notes and an unchanged registry; the message begins with "Blame error: [tag]."
and contains "blame is on the value"; negative polarity yields a message
containing "blame is on the context" instead; and a non Nil path (Domain p or
Codomain p) appends its rendered trace to the message, while the Nil path
appends nothing. -/
theorem c6_blame_error_message_and_label (tag : String) (s : RawSpan)
    (cs : Option CallStack) (files : Files) (p : TyPath) :
    (EvalError.to_diagnostic
        (EvalError.BlameError
          { tag := tag, polarity := true, path := TyPath.Nil, span := s } cs)
        files =
      ({ message := "Blame error: [" ++ tag ++ "]." ++
           "  The blame is on the value (positive blame)\n",
         labels := [{ style := LabelStyle.Primary, file_id := s.src_id,
                      range_start := s.start, range_end := s.end_,
                      message := "bound here" }],
         notes := [] },
       files)) ∧
    (∃ rest,
      (EvalError.to_diagnostic
          (EvalError.BlameError
            { tag := tag, polarity := true, path := TyPath.Nil, span := s }
            cs) files).1.message =
        ("Blame error: [" ++ tag ++ "].") ++ rest) ∧
    (∃ a b,
      (EvalError.to_diagnostic
          (EvalError.BlameError
            { tag := tag, polarity := true, path := TyPath.Nil, span := s }
            cs) files).1.message =
        a ++ "blame is on the value" ++ b) ∧
    (∃ a b,
      (EvalError.to_diagnostic
          (EvalError.BlameError
            { tag := tag, polarity := false, path := TyPath.Nil, span := s }
            cs) files).1.message =
        a ++ "blame is on the context" ++ b) ∧
    ((EvalError.to_diagnostic
        (EvalError.BlameError
          { tag := tag, polarity := true, path := TyPath.Domain p, span := s }
          cs) files).1.message =
      "Blame error: [" ++ tag ++ "]." ++
        "  The blame is on the value (positive blame)\n" ++
        TyPath.debug_repr (TyPath.Domain p)) ∧
    ((EvalError.to_diagnostic
        (EvalError.BlameError
          { tag := tag, polarity := true, path := TyPath.Codomain p,
            span := s } cs) files).1.message =
      "Blame error: [" ++ tag ++ "]." ++
        "  The blame is on the value (positive blame)\n" ++
        TyPath.debug_repr (TyPath.Codomain p)) := by
  have hpos :
      EvalError.to_diagnostic
          (EvalError.BlameError
            { tag := tag, polarity := true, path := TyPath.Nil, span := s }
            cs) files =
        ({ message := "Blame error: [" ++ tag ++ "]." ++
             "  The blame is on the value (positive blame)\n",
           labels := [{ style := LabelStyle.Primary, file_id := s.src_id,
                        range_start := s.start, range_end := s.end_,
                        message := "bound here" }],
           notes := [] },
         files) := by
    simp [EvalError.to_diagnostic, Diagnostic.error, Diagnostic.with_message,
      Diagnostic.with_labels, CLabel.primary, CLabel.new, CLabel.with_message,
      String.append_empty]
  have hneg :
      (EvalError.to_diagnostic
          (EvalError.BlameError
            { tag := tag, polarity := false, path := TyPath.Nil, span := s }
            cs) files).1.message =
        "Blame error: [" ++ tag ++ "]." ++
          "  The blame is on the context (negative blame)\n" := by
    simp [EvalError.to_diagnostic, Diagnostic.error, Diagnostic.with_message,
      Diagnostic.with_labels, String.append_empty]
  refine ⟨hpos,
    ⟨"  The blame is on the value (positive blame)\n", by rw [hpos]⟩,
    ⟨"Blame error: [" ++ tag ++ "].  The ", " (positive blame)\n", ?_⟩,
    ⟨"Blame error: [" ++ tag ++ "].  The ", " (negative blame)\n", ?_⟩,
    ?_, ?_⟩
  · rw [hpos]
    simp only [String.append_assoc]
    exact congrArg (fun r => "Blame error: [" ++ r)
      (congrArg (fun r => tag ++ r) (by decide))
  · rw [hneg]
    simp only [String.append_assoc]
    exact congrArg (fun r => "Blame error: [" ++ r)
      (congrArg (fun r => tag ++ r) (by decide))
  · simp [EvalError.to_diagnostic, Diagnostic.error, Diagnostic.with_message,
      Diagnostic.with_labels]
  · simp [EvalError.to_diagnostic, Diagnostic.error, Diagnostic.with_message,
      Diagnostic.with_labels]

end Nickel
